import Mathlib

/-!
Shallow embedding of the snapshot-collection script of the repository
(scripts/data_collection/config.py and scripts/data_collection/fetch_snapshots.py).

External effects (the YouTube API call, the database connect, the talent
lookup query and the snapshot insert) are parametrised by explicit outcome
values: each outcome type has one constructor per behaviour the Python code
distinguishes (a normal return, an HttpError, a psycopg2.Error, an
unclassified exception).  Each Python function then becomes a total Lean
function of the relevant outcome; totality models the fact that the function
catches the corresponding exceptions and never propagates them.
-/

namespace YuuraHub

/-- Python truthiness of an optional string value: None and the empty string
are falsy, every other string is truthy. -/
def optStrTruthy : Option String → Bool
  | none => false
  | some s => !s.isEmpty

/-! ## config.py -/

/-- The environment variables read by config.py (os.getenv returns None for
an unset variable). -/
structure EnvVars where
  YOUTUBE_API_KEY : Option String
  DB_HOST : Option String
  DB_NAME : Option String
  DB_USER : Option String
  DB_PASSWORD : Option String
  SUPABASE_URL : Option String
  deriving DecidableEq

/-- The `required` list built inside validate_config: name/value pairs for
YOUTUBE_API_KEY, DB_HOST (DB_CONFIG host), DB_PASSWORD (DB_CONFIG password)
and SUPABASE_URL, in that order. -/
def required_list (e : EnvVars) : List (String × Option String) :=
  [("YOUTUBE_API_KEY", e.YOUTUBE_API_KEY),
   ("DB_HOST", e.DB_HOST),
   ("DB_PASSWORD", e.DB_PASSWORD),
   ("SUPABASE_URL", e.SUPABASE_URL)]

/-- The `missing` list comprehension of validate_config: the names of the
required entries whose value is falsy. -/
def missing_names (e : EnvVars) : List String :=
  ((required_list e).filter (fun p => !optStrTruthy p.2)).map Prod.fst

/-- validate_config of config.py: raises EnvironmentError listing the missing
names when `missing` is non-empty, otherwise returns True.  The raised error
is modelled as the .error case carrying the missing names. -/
def validate_config (e : EnvVars) : Except (List String) Bool :=
  if (missing_names e).isEmpty then .ok true else .error (missing_names e)

/-! ## fetch_channel_stats -/

/-- The `statistics` object of one item of the API response; each counter
field may be absent. -/
structure Statistics where
  subscriberCount : Option Int
  viewCount : Option Int
  videoCount : Option Int
  deriving DecidableEq

/-- One element of the `items` list of the API response. -/
structure ChannelItem where
  statistics : Statistics
  deriving DecidableEq

/-- The response of youtube.channels().list(...).execute(). -/
structure ChannelListResponse where
  items : List ChannelItem
  deriving DecidableEq

/-- Outcome of the API request in fetch_channel_stats: a response, an
HttpError, or any other exception. -/
inductive ApiOutcome where
  | ok (response : ChannelListResponse)
  | httpError (msg : String)
  | unexpectedError (msg : String)
  deriving DecidableEq

/-- The dict returned by fetch_channel_stats on success. -/
structure ChannelStats where
  subscriber_count : Int
  view_count : Int
  video_count : Int
  deriving DecidableEq

/-- fetch_channel_stats of fetch_snapshots.py: returns the normalised stats
record, or none when the items list is empty (channel not found), when the
request raises HttpError, or when it raises any other exception.  Absent
counter fields default to 0 via stats.get(field, 0). -/
def fetch_channel_stats (outcome : ApiOutcome) : Option ChannelStats :=
  match outcome with
  | .ok response =>
    match response.items with
    | [] => none
    | item :: _ =>
      let stats := item.statistics
      some { subscriber_count := stats.subscriberCount.getD 0
             view_count := stats.viewCount.getD 0
             video_count := stats.videoCount.getD 0 }
  | .httpError _ => none
  | .unexpectedError _ => none

/-! ## get_talent_id -/

/-- Outcome of the SELECT on the talents table inside get_talent_id:
cursor.fetchone() returns a row (its first column is the talent id) or no
row, or the query raises psycopg2.Error. -/
inductive LookupOutcome where
  | fetched (row : Option String)
  | dbError (msg : String)
  deriving DecidableEq

/-- get_talent_id of fetch_snapshots.py: returns the id of the fetched row,
none when no row matched, and none when psycopg2.Error was raised. -/
def get_talent_id (outcome : LookupOutcome) : Option String :=
  match outcome with
  | .fetched (some id) => some id
  | .fetched none => none
  | .dbError _ => none

/-! ## save_snapshot -/

/-- One row of the snapshots table. -/
structure SnapshotRow where
  talent_id : String
  sub_count : Int
  view_count : Int
  video_count : Int
  recorded_at : Nat
  deriving DecidableEq

/-- A database connection: the committed snapshot rows (persistent) and the
rows of the current open transaction (pending; discarded by rollback,
persisted by commit). -/
structure PgConnection where
  committed : List SnapshotRow
  pending : List SnapshotRow
  deriving DecidableEq

/-- Executing the INSERT statement adds the row to the open transaction. -/
def PgConnection.insertRow (c : PgConnection) (row : SnapshotRow) : PgConnection :=
  { c with pending := c.pending ++ [row] }

/-- conn.commit(): persists the open transaction. -/
def PgConnection.commitTx (c : PgConnection) : PgConnection :=
  { committed := c.committed ++ c.pending, pending := [] }

/-- conn.rollback(): discards the open transaction. -/
def PgConnection.rollbackTx (c : PgConnection) : PgConnection :=
  { c with pending := [] }

/-- Outcome of executing the INSERT in save_snapshot: success or
psycopg2.Error. -/
inductive InsertOutcome where
  | ok
  | dbError (msg : String)
  deriving DecidableEq

/-- save_snapshot of fetch_snapshots.py: on success executes the single
INSERT (with NOW() supplied by the database clock, here `now`) and commits,
returning True; on psycopg2.Error rolls the transaction back and returns
False. -/
def save_snapshot (conn : PgConnection) (outcome : InsertOutcome)
    (talent_id : String) (stats : ChannelStats) (now : Nat) :
    PgConnection × Bool :=
  match outcome with
  | .ok =>
    let conn := conn.insertRow
      { talent_id := talent_id
        sub_count := stats.subscriber_count
        view_count := stats.view_count
        video_count := stats.video_count
        recorded_at := now }
    (conn.commitTx, true)
  | .dbError _ => (conn.rollbackTx, false)

/-! ## main -/

/-- Outcome of build('youtube', 'v3', ...): success or an exception. -/
inductive BuildOutcome where
  | ok
  | raised (msg : String)
  deriving DecidableEq

/-- Outcome of psycopg2.connect(**DB_CONFIG): a connection to a database
holding the given committed snapshot rows (a fresh connection has no open
transaction), a psycopg2.Error, or any other exception. -/
inductive ConnectOutcome where
  | ok (db : List SnapshotRow)
  | pgError (msg : String)
  | unexpectedError (msg : String)
  deriving DecidableEq

/-- Observable external actions of one run, in order. -/
inductive Event where
  | apiConnected
  | statsFetchCalled
  | dbConnected
  | talentLookupCalled
  | insertAttempted
  | connClosed
  deriving DecidableEq

/-- The behaviour of the external world during one run: what each external
call would do if made. -/
structure ExternalWorld where
  buildOutcome : BuildOutcome
  apiOutcome : ApiOutcome
  connectOutcome : ConnectOutcome
  lookupOutcome : LookupOutcome
  insertOutcome : InsertOutcome
  dbNow : Nat
  deriving DecidableEq

/-- Result of one run of main: the value returned (passed to sys.exit by the
entry point), the ordered external actions performed, and the final state of
the database connection when one was opened. -/
structure RunResult where
  exitCode : Nat
  events : List Event
  finalConn : Option PgConnection
  deriving DecidableEq

/-- main of fetch_snapshots.py.  Control flow of the source: build the API
client (any exception reaches the generic handler, return 1); fetch stats,
`if not stats: return 1`; psycopg2.connect (psycopg2.Error or any other
exception reaches a handler, return 1); get_talent_id, `if not talent_id:
return 1` (Python string truthiness: None and the empty string are falsy);
save_snapshot, return 0 on True and 1 on False.  The finally block closes
the connection whenever one was opened. -/
def main (w : ExternalWorld) : RunResult :=
  match w.buildOutcome with
  | .raised _ => { exitCode := 1, events := [], finalConn := none }
  | .ok =>
    let ev := [Event.apiConnected, Event.statsFetchCalled]
    match fetch_channel_stats w.apiOutcome with
    | none => { exitCode := 1, events := ev, finalConn := none }
    | some stats =>
      match w.connectOutcome with
      | .pgError _ => { exitCode := 1, events := ev, finalConn := none }
      | .unexpectedError _ => { exitCode := 1, events := ev, finalConn := none }
      | .ok db =>
        let conn : PgConnection := { committed := db, pending := [] }
        let ev := ev ++ [Event.dbConnected, Event.talentLookupCalled]
        match get_talent_id w.lookupOutcome with
        | none =>
          { exitCode := 1, events := ev ++ [Event.connClosed]
            finalConn := some conn }
        | some tid =>
          if tid.isEmpty then
            { exitCode := 1, events := ev ++ [Event.connClosed]
              finalConn := some conn }
          else
            let r := save_snapshot conn w.insertOutcome tid stats w.dbNow
            { exitCode := if r.2 then 0 else 1
              events := ev ++ [Event.insertAttempted, Event.connClosed]
              finalConn := some r.1 }

/-- The whole script: importing config runs validate_config before main can
run; a validation failure aborts the process before any external call. -/
def run_script (e : EnvVars) (w : ExternalWorld) :
    Except (List String) RunResult :=
  match validate_config e with
  | .error missing => .error missing
  | .ok _ => .ok (main w)

/-- The run completed every pipeline step through snapshot-saved: the API
client was built, the fetch returned stats, the connect succeeded, the
talent lookup returned a truthy id, and the insert succeeded. -/
def reachedSnapshotSaved (w : ExternalWorld) : Prop :=
  w.buildOutcome = .ok ∧
  (∃ s, fetch_channel_stats w.apiOutcome = some s) ∧
  (∃ db, w.connectOutcome = .ok db) ∧
  (∃ tid, get_talent_id w.lookupOutcome = some tid ∧ tid.isEmpty = false) ∧
  w.insertOutcome = .ok

/-! ## Concrete sample inputs -/

/-- A statistics object with all three counters present. -/
def happyStats : Statistics :=
  { subscriberCount := some 100, viewCount := some 2000, videoCount := some 30 }

/-- An API response containing one matching item. -/
def happyResponse : ChannelListResponse :=
  { items := [{ statistics := happyStats }] }

/-- A world where every external call succeeds. -/
def wAllOk : ExternalWorld :=
  { buildOutcome := .ok
    apiOutcome := .ok happyResponse
    connectOutcome := .ok []
    lookupOutcome := .fetched (some "talent-1")
    insertOutcome := .ok
    dbNow := 7 }

/-- A world where fetch and resolve succeed but the INSERT raises a
database error. -/
def wInsertFails : ExternalWorld :=
  { wAllOk with insertOutcome := .dbError "disk full" }

/-- A world where the talent lookup matches zero rows. -/
def wNotFound : ExternalWorld :=
  { wAllOk with lookupOutcome := .fetched none }

/-- A world where the stats fetch fails with an API error. -/
def wFetchFails : ExternalWorld :=
  { wAllOk with apiOutcome := .httpError "quota exceeded" }

/-! ## Claims -/

/-- Claim C1, counterexample to the claim as stated: in this run the stats
fetch succeeds and the talent lookup succeeds, yet (because the INSERT
raises a database error) no snapshot row is inserted and the process exits
with code 1, not 0. -/
theorem C1_counterexample :
    fetch_channel_stats wInsertFails.apiOutcome =
      some { subscriber_count := 100, view_count := 2000, video_count := 30 } ∧
    get_talent_id wInsertFails.lookupOutcome = some "talent-1" ∧
    (main wInsertFails).exitCode = 1 ∧
    (main wInsertFails).finalConn = some { committed := [], pending := [] } :=
  ⟨rfl, rfl, rfl, rfl⟩

/-- Claim C1 (amended): for every run in which the stats fetch succeeds, the
database connect succeeds, the talent lookup succeeds, and the snapshot
INSERT raises no database error, exactly one row is appended to the
committed snapshots table, with talent_id equal to the resolved identifier and
counts equal to the fetched values, and the process exits with code 0. -/
theorem C1_success_inserts_one_row (w : ExternalWorld) (s : ChannelStats)
    (db : List SnapshotRow) (tid : String)
    (hb : w.buildOutcome = .ok)
    (hf : fetch_channel_stats w.apiOutcome = some s)
    (hc : w.connectOutcome = .ok db)
    (hl : get_talent_id w.lookupOutcome = some tid)
    (ht : tid.isEmpty = false)
    (hi : w.insertOutcome = .ok) :
    (main w).exitCode = 0 ∧
    (main w).finalConn = some
      { committed := db ++
          [{ talent_id := tid
             sub_count := s.subscriber_count
             view_count := s.view_count
             video_count := s.video_count
             recorded_at := w.dbNow }]
        pending := [] } := by
  simp [main, hb, hf, hc, hl, ht, hi, save_snapshot,
    PgConnection.insertRow, PgConnection.commitTx]

/-- Witness for C1: the amended claim applied to the all-success world. -/
theorem C1_success_inserts_one_row_witness :
    (main wAllOk).exitCode = 0 ∧
    (main wAllOk).finalConn = some
      { committed :=
          [{ talent_id := "talent-1"
             sub_count := 100
             view_count := 2000
             video_count := 30
             recorded_at := 7 }]
        pending := [] } :=
  C1_success_inserts_one_row wAllOk
    { subscriber_count := 100, view_count := 2000, video_count := 30 }
    [] "talent-1" rfl rfl rfl rfl rfl rfl

/-- Claim C2: the process exit code is 0 exactly when every pipeline step
completed through snapshot-saved, and every termination yields exit code
0 or 1 (so every other termination yields 1). -/
theorem C2_exit_code_characterisation (w : ExternalWorld) :
    ((main w).exitCode = 0 ↔ reachedSnapshotSaved w) ∧
    ((main w).exitCode = 0 ∨ (main w).exitCode = 1) := by
  obtain ⟨b, a, c, l, i, n⟩ := w
  cases b with
  | raised m => simp [main, reachedSnapshotSaved]
  | ok =>
    cases hf : fetch_channel_stats a with
    | none => simp [main, reachedSnapshotSaved, hf]
    | some s =>
      cases c with
      | pgError m => simp [main, reachedSnapshotSaved, hf]
      | unexpectedError m => simp [main, reachedSnapshotSaved, hf]
      | ok db =>
        cases hl : get_talent_id l with
        | none => simp [main, reachedSnapshotSaved, hf, hl]
        | some tid =>
          cases he : tid.isEmpty with
          | true => simp [main, reachedSnapshotSaved, hf, hl, he]
          | false =>
            cases i with
            | ok =>
              simp [main, reachedSnapshotSaved, hf, hl, he, save_snapshot]
            | dbError m =>
              simp [main, reachedSnapshotSaved, hf, hl, he, save_snapshot]

/-- An environment with every variable set except DB_NAME. -/
def envNoDbName : EnvVars :=
  { YOUTUBE_API_KEY := some "k", DB_HOST := some "h", DB_NAME := none
    DB_USER := some "u", DB_PASSWORD := some "p", SUPABASE_URL := some "s" }

/-- An environment missing the API key (unset) and the host (empty). -/
def envMissingTwo : EnvVars :=
  { YOUTUBE_API_KEY := none, DB_HOST := some "", DB_NAME := some "yuura"
    DB_USER := some "u", DB_PASSWORD := some "p", SUPABASE_URL := some "s" }

/-- Claim C3, counterexample to the claim as stated: DB_NAME is a required
value per the claim, yet with DB_NAME absent (all else set) the validation
passes, the process does not abort, and both network and database activity
take place. -/
theorem C3_counterexample :
    envNoDbName.DB_NAME = none ∧
    validate_config envNoDbName = .ok true ∧
    run_script envNoDbName wAllOk = .ok (main wAllOk) ∧
    Event.statsFetchCalled ∈ (main wAllOk).events ∧
    Event.dbConnected ∈ (main wAllOk).events := by
  refine ⟨rfl, rfl, rfl, ?_, ?_⟩ <;> decide

/-- Claim C3 (amended): the variables actually validated are
YOUTUBE_API_KEY, DB_HOST, DB_PASSWORD and SUPABASE_URL (not DB_NAME or
DB_USER).  If any of those four is unset or empty, the script aborts before
any external activity, with an error naming exactly the missing ones of
those four. -/
theorem C3_validation_aborts (e : EnvVars) (w : ExternalWorld)
    (h : (missing_names e).isEmpty = false) :
    run_script e w = .error (missing_names e) ∧
    ∀ name, name ∈ missing_names e ↔
      ((name = "YOUTUBE_API_KEY" ∧ optStrTruthy e.YOUTUBE_API_KEY = false) ∨
       (name = "DB_HOST" ∧ optStrTruthy e.DB_HOST = false) ∨
       (name = "DB_PASSWORD" ∧ optStrTruthy e.DB_PASSWORD = false) ∨
       (name = "SUPABASE_URL" ∧ optStrTruthy e.SUPABASE_URL = false)) := by
  constructor
  · simp [run_script, validate_config, h]
  · intro name
    cases h1 : optStrTruthy e.YOUTUBE_API_KEY <;>
      cases h2 : optStrTruthy e.DB_HOST <;>
        cases h3 : optStrTruthy e.DB_PASSWORD <;>
          cases h4 : optStrTruthy e.SUPABASE_URL <;>
            simp [missing_names, required_list, h1, h2, h3, h4]

/-- Witness for C3: the amended claim applied to an environment missing the
API key and the host; DB_NAME, present in the claim but not checked by the
code, is not among the reported names. -/
theorem C3_validation_aborts_witness :
    (missing_names envMissingTwo).isEmpty = false ∧
    run_script envMissingTwo wAllOk = .error (missing_names envMissingTwo) ∧
    ("DB_NAME" ∈ missing_names envMissingTwo ↔
      (("DB_NAME" = "YOUTUBE_API_KEY" ∧
          optStrTruthy envMissingTwo.YOUTUBE_API_KEY = false) ∨
       ("DB_NAME" = "DB_HOST" ∧ optStrTruthy envMissingTwo.DB_HOST = false) ∨
       ("DB_NAME" = "DB_PASSWORD" ∧
          optStrTruthy envMissingTwo.DB_PASSWORD = false) ∨
       ("DB_NAME" = "SUPABASE_URL" ∧
          optStrTruthy envMissingTwo.SUPABASE_URL = false))) :=
  ⟨by decide,
   (C3_validation_aborts envMissingTwo wAllOk (by decide)).1,
   (C3_validation_aborts envMissingTwo wAllOk (by decide)).2 "DB_NAME"⟩

/-- Claim C4: for every response containing a matching resource, the fetcher
returns a record whose fields equal the value of the corresponding response
field when present and zero when absent. -/
theorem C4_field_normalisation (item : ChannelItem) (rest : List ChannelItem) :
    ∃ s, fetch_channel_stats (.ok { items := item :: rest }) = some s ∧
      s.subscriber_count = (match item.statistics.subscriberCount with
        | some v => v
        | none => 0) ∧
      s.view_count = (match item.statistics.viewCount with
        | some v => v
        | none => 0) ∧
      s.video_count = (match item.statistics.videoCount with
        | some v => v
        | none => 0) := by
  refine ⟨_, rfl, ?_, ?_, ?_⟩
  · rcases h : item.statistics.subscriberCount with _ | v <;> simp [h]
  · rcases h : item.statistics.viewCount with _ | v <;> simp [h]
  · rcases h : item.statistics.videoCount with _ | v <;> simp [h]

/-- Claim C5: when the talent resolver returns not-found, the run exits 1
before any snapshot insert is attempted and the committed snapshots table is
left exactly as it was. -/
theorem C5_not_found_aborts_before_insert (w : ExternalWorld)
    (db : List SnapshotRow) (s : ChannelStats)
    (hb : w.buildOutcome = .ok)
    (hf : fetch_channel_stats w.apiOutcome = some s)
    (hc : w.connectOutcome = .ok db)
    (hl : get_talent_id w.lookupOutcome = none) :
    (main w).exitCode = 1 ∧
    Event.insertAttempted ∉ (main w).events ∧
    (main w).finalConn = some { committed := db, pending := [] } := by
  simp [main, hb, hf, hc, hl]

/-- Witness for C5: the claim applied to a world whose lookup matches zero
rows. -/
theorem C5_not_found_witness :
    (main wNotFound).exitCode = 1 ∧
    Event.insertAttempted ∉ (main wNotFound).events ∧
    (main wNotFound).finalConn = some { committed := [], pending := [] } :=
  C5_not_found_aborts_before_insert wNotFound []
    { subscriber_count := 100, view_count := 2000, video_count := 30 }
    rfl rfl rfl rfl

/-- Claim C6: when the snapshot INSERT raises a database error, the writer
rolls the transaction back (the committed table is unchanged and no row is
left pending) and the run exits with code 1. -/
theorem C6_insert_error_rolls_back (w : ExternalWorld) (s : ChannelStats)
    (db : List SnapshotRow) (tid msg : String)
    (hb : w.buildOutcome = .ok)
    (hf : fetch_channel_stats w.apiOutcome = some s)
    (hc : w.connectOutcome = .ok db)
    (hl : get_talent_id w.lookupOutcome = some tid)
    (ht : tid.isEmpty = false)
    (hi : w.insertOutcome = .dbError msg) :
    (main w).exitCode = 1 ∧
    (main w).finalConn = some { committed := db, pending := [] } := by
  simp [main, hb, hf, hc, hl, ht, hi, save_snapshot, PgConnection.rollbackTx]

/-- Witness for C6: the claim applied to a world whose INSERT fails. -/
theorem C6_insert_error_witness :
    (main wInsertFails).exitCode = 1 ∧
    (main wInsertFails).finalConn = some { committed := [], pending := [] } :=
  C6_insert_error_rolls_back wInsertFails
    { subscriber_count := 100, view_count := 2000, video_count := 30 }
    [] "talent-1" "disk full" rfl rfl rfl rfl rfl rfl

/-- Claim C7: an HttpError, any other exception, and a response with no
matching resource all produce the same none result of fetch_channel_stats
(the function is total, so no exception propagates, and the caller cannot
distinguish the failure kinds). -/
theorem C7_fetch_errors_downgraded (msgHttp msgOther : String) :
    fetch_channel_stats (.httpError msgHttp) = none ∧
    fetch_channel_stats (.unexpectedError msgOther) = none ∧
    fetch_channel_stats (.ok { items := [] }) = none :=
  ⟨rfl, rfl, rfl⟩

/-- Claim C8: the talent resolver returns none both when the lookup matches
zero rows and when the query raises a database error (the function is total
on every lookup outcome, so no database exception propagates). -/
theorem C8_lookup_errors_as_not_found (msg : String) :
    get_talent_id (.fetched none) = none ∧
    get_talent_id (.dbError msg) = none :=
  ⟨rfl, rfl⟩

/-- Every counter field present in the statistics object is non-negative. -/
def Statistics.countsNonneg (st : Statistics) : Bool :=
  st.subscriberCount.all (fun v => decide (0 ≤ v)) &&
  st.viewCount.all (fun v => decide (0 ≤ v)) &&
  st.videoCount.all (fun v => decide (0 ≤ v))

/-- A response whose only item carries a negative subscriber count. -/
def negativeResponse : ChannelListResponse :=
  { items := [{ statistics :=
      { subscriberCount := some (-5), viewCount := some 0
        videoCount := some 0 } }] }

/-- Claim C9, counterexample to the claim as stated: the fetcher performs no
validation, so a response carrying a negative counter yields a successful
fetch whose record has a negative field. -/
theorem C9_counterexample :
    fetch_channel_stats (.ok negativeResponse) =
      some { subscriber_count := -5, view_count := 0, video_count := 0 } ∧
    ¬ (0 ≤ (-5 : Int)) :=
  ⟨rfl, by decide⟩

/-- Claim C9 (amended): for every successful fetch from a response whose
present counter fields are non-negative, the returned record has
non-negative values in all three fields (absent fields become 0). -/
theorem C9_nonneg_when_response_nonneg (item : ChannelItem)
    (rest : List ChannelItem) (s : ChannelStats)
    (hnn : item.statistics.countsNonneg = true)
    (hf : fetch_channel_stats (.ok { items := item :: rest }) = some s) :
    0 ≤ s.subscriber_count ∧ 0 ≤ s.view_count ∧ 0 ≤ s.video_count := by
  simp [fetch_channel_stats] at hf
  subst hf
  rcases h1 : item.statistics.subscriberCount with _ | v1 <;>
    rcases h2 : item.statistics.viewCount with _ | v2 <;>
      rcases h3 : item.statistics.videoCount with _ | v3 <;>
        simp_all [Statistics.countsNonneg]

/-- Witness for C9: the amended claim applied to the happy response. -/
theorem C9_nonneg_witness :
    0 ≤ ({ subscriber_count := 100, view_count := 2000
           video_count := 30 } : ChannelStats).subscriber_count ∧
    0 ≤ ({ subscriber_count := 100, view_count := 2000
           video_count := 30 } : ChannelStats).view_count ∧
    0 ≤ ({ subscriber_count := 100, view_count := 2000
           video_count := 30 } : ChannelStats).video_count :=
  C9_nonneg_when_response_nonneg { statistics := happyStats } []
    { subscriber_count := 100, view_count := 2000, video_count := 30 }
    (by decide) rfl

/-- Claim C10: in every run whose stats fetch fails, the orchestrator never
opens a database connection: dbConnected is not among the performed actions
and no connection state exists at the end of the run. -/
theorem C10_no_db_connection_on_fetch_failure (w : ExternalWorld)
    (hf : fetch_channel_stats w.apiOutcome = none) :
    Event.dbConnected ∉ (main w).events ∧ (main w).finalConn = none := by
  cases hb : w.buildOutcome with
  | raised m => simp [main, hb]
  | ok => simp [main, hb, hf]

/-- Witness for C10: the claim applied to a world whose API call raises. -/
theorem C10_no_db_witness :
    Event.dbConnected ∉ (main wFetchFails).events ∧
    (main wFetchFails).finalConn = none :=
  C10_no_db_connection_on_fetch_failure wFetchFails rfl

end YuuraHub
